import Mathlib

/-!
Shallow embedding of the quiz auto-generation wizard of the Quizapp
repository (`src/components/QuizBuilder/QuizGeneratorWizard.tsx`, with the
data model of `src/types/index.ts`).

Modelling choices:
* Only the fields of `Question` that the wizard reads (`id` and `tags`) are
  embedded; the remaining fields (question text, options, timestamps) are
  never consulted by the generator and do not affect any statement below.
* TypeScript `number` quantities (chapter/topic counts, question counts,
  percentage values) are embedded as `Int`: every value the UI produces is an
  integer (`parseInt(...) || 0`).  `Array.prototype.slice(0, n)` is
  `List.take n.toNat`, which agrees with JavaScript for negative `n` as well.
* Mark values (`Math.round(x * 10) / 10`) are embedded as rationals;
  `Math.round` is `⌊x + 1/2⌋` (round half towards positive infinity).
* `usedQuestions : Set<string>` is a list of ids with membership testing.
* The in-place shuffle `[...pool].sort(() => Math.random() - 0.5)` is
  embedded as an explicit parameter `shuffle : List Question → List Question`;
  theorems about it assume only that `shuffle l` is a permutation of `l`,
  which is all the ECMAScript specification guarantees for a sort with an
  inconsistent comparator.
* `validateSectionsStep` / `validateFiltersStep` push error strings; each
  distinct message template becomes one constructor of `WizardError`,
  carrying exactly the data interpolated into the string (with the 0-based
  section index; the message displays `index + 1`).
-/

namespace Quizapp

/-- `QuestionTags` of `src/types/index.ts` (difficulty level and question
type are string literals `Easy | Medium | Hard`, `MCQ | MMCQ | Numeric`). -/
structure QuestionTags where
  exam_type : String
  subject : String
  chapter : String
  topic : String
  difficulty_level : String
  question_type : String
deriving DecidableEq, Repr

/-- `Question` of `src/types/index.ts`, restricted to the fields the wizard
reads. -/
structure Question where
  id : String
  tags : QuestionTags
deriving DecidableEq, Repr

/-- `TopicDistribution` of `src/types/index.ts`. -/
structure TopicDistribution where
  topic : String
  count : Int
deriving DecidableEq, Repr

/-- `ChapterDistribution` of `src/types/index.ts`. -/
structure ChapterDistribution where
  chapter : String
  count : Int
  topics : List TopicDistribution
deriving DecidableEq, Repr

/-- `Record<DifficultyLevel, number>`: one percentage per difficulty level. -/
structure DifficultyDistribution where
  Easy : Int
  Medium : Int
  Hard : Int
deriving DecidableEq, Repr

/-- `Record<QuestionType, number>`: one percentage per question type. -/
structure TypeDistribution where
  MCQ : Int
  MMCQ : Int
  Numeric : Int
deriving DecidableEq, Repr

/-- `Object.values(section.difficultyDistribution).reduce((sum, val) => sum + val, 0)`. -/
def DifficultyDistribution.total (d : DifficultyDistribution) : Int :=
  d.Easy + d.Medium + d.Hard

/-- `Object.values(section.typeDistribution).reduce((sum, val) => sum + val, 0)`. -/
def TypeDistribution.total (d : TypeDistribution) : Int :=
  d.MCQ + d.MMCQ + d.Numeric

/-- `SectionSetup` of `QuizGeneratorWizard.tsx`. -/
structure SectionSetup where
  id : String
  subject : String
  questionCount : Int
  difficultyDistribution : DifficultyDistribution
  typeDistribution : TypeDistribution
  chapterDistribution : List ChapterDistribution
deriving DecidableEq, Repr

/-- The wizard's inputs and state that the generation logic reads: the
`questions` and `usedQuestions` props and the `examType` and `sections`
state variables. -/
structure WizardState where
  questions : List Question
  usedQuestions : List String
  examType : String
  sections : List SectionSetup
deriving DecidableEq, Repr

/-- `QuizSection` of `src/types/index.ts`, restricted to the fields the
generator's object literal populates. -/
structure QuizSection where
  id : String
  name : String
  timerEnabled : Bool
  marks : ℚ
  negativeMarks : ℚ
  questions : List Question
deriving DecidableEq, Repr

/-- `chapter.topics.reduce((sum, topic) => sum + topic.count, 0)`. -/
def ChapterDistribution.topicTotal (cd : ChapterDistribution) : Int :=
  (cd.topics.map TopicDistribution.count).sum

/-- `if (chapter && q.tags.chapter !== chapter) return false;` — a passed
chapter string constrains the question only when it is truthy (non-empty). -/
def chapterMatches (copt : Option String) (q : Question) : Bool :=
  match copt with
  | none => true
  | some c => c == "" || q.tags.chapter == c

/-- `if (topic && q.tags.topic !== topic) return false;` with JavaScript
truthiness, as for `chapterMatches`. -/
def topicMatches (topt : Option String) (q : Question) : Bool :=
  match topt with
  | none => true
  | some t => t == "" || q.tags.topic == t

/-- `const isUsedInOtherSections = sections.some(s => ...)` inside
`getFilteredQuestions`. -/
def usedInOtherSections (sections : List SectionSetup) (sec : SectionSetup)
    (q : Question) : Bool :=
  sections.any fun s =>
    s.id != sec.id &&
    s.subject == q.tags.subject &&
    s.chapterDistribution.any fun cd =>
      cd.chapter == q.tags.chapter ||
      cd.topics.any fun t => t.topic == q.tags.topic

/-- The filter predicate of `getFilteredQuestions`, in the source's order of
short-circuiting checks. -/
def questionPasses (st : WizardState) (sec : SectionSetup)
    (copt topt : Option String) (q : Question) : Bool :=
  !(st.usedQuestions.contains q.id) &&
  q.tags.exam_type == st.examType &&
  q.tags.subject == sec.subject &&
  chapterMatches copt q &&
  topicMatches topt q &&
  !(usedInOtherSections st.sections sec q)

/-- `getFilteredQuestions(section, chapter?, topic?)` of
`QuizGeneratorWizard.tsx` (lines 61–84). -/
def getFilteredQuestions (st : WizardState) (sec : SectionSetup)
    (copt topt : Option String) : List Question :=
  st.questions.filter (questionPasses st sec copt topt)

/-- One constructor per distinct error message pushed by
`validateSectionsStep` / `validateFiltersStep`, carrying the data
interpolated into the message (`idx` is the 0-based section index; the
string shows `idx + 1`).  `need` is the requested count and `avail` the
length of the filtered question list. -/
inductive WizardError where
  | addAtLeastOneSection
  | selectSubject (idx : Nat)
  | difficultyTotal (idx : Nat)
  | typeTotal (idx : Nat)
  | specifyChapterDistribution (idx : Nat)
  | notEnoughChapter (idx : Nat) (chapter : String) (need : Int) (avail : Nat)
  | topicExceedsChapter (idx : Nat) (chapter : String) (tTotal cCount : Int)
  | notEnoughTopic (idx : Nat) (chapter : String) (topic : String)
      (need : Int) (avail : Nat)
  | notEnoughSection (idx : Nat) (need : Int) (avail : Nat)
deriving DecidableEq, Repr

/-- The per-topic check of `validateSectionsStep` (lines 232–239). -/
def validateTopicEntry (st : WizardState) (i : Nat) (sec : SectionSetup)
    (cd : ChapterDistribution) (t : TopicDistribution) : List WizardError :=
  if ((getFilteredQuestions st sec (some cd.chapter) (some t.topic)).length : Int)
      < t.count then
    [WizardError.notEnoughTopic i cd.chapter t.topic t.count
      (getFilteredQuestions st sec (some cd.chapter) (some t.topic)).length]
  else []

/-- The per-chapter checks of `validateSectionsStep` (lines 217–240):
availability, topic total not exceeding the chapter count, and the per-topic
availability checks. -/
def validateChapterEntry (st : WizardState) (i : Nat) (sec : SectionSetup)
    (cd : ChapterDistribution) : List WizardError :=
  (if ((getFilteredQuestions st sec (some cd.chapter) none).length : Int)
      < cd.count then
    [WizardError.notEnoughChapter i cd.chapter cd.count
      (getFilteredQuestions st sec (some cd.chapter) none).length]
  else []) ++
  (if cd.topicTotal > cd.count then
    [WizardError.topicExceedsChapter i cd.chapter cd.topicTotal cd.count]
  else []) ++
  cd.topics.flatMap (validateTopicEntry st i sec cd)

/-- The per-section body of `sections.forEach` in `validateSectionsStep`
(lines 198–241), in the source's push order. -/
def validateSection (st : WizardState) (i : Nat) (sec : SectionSetup) :
    List WizardError :=
  (if sec.subject == "" then [WizardError.selectSubject i] else []) ++
  (if sec.difficultyDistribution.total != 100 then
    [WizardError.difficultyTotal i] else []) ++
  (if sec.typeDistribution.total != 100 then
    [WizardError.typeTotal i] else []) ++
  (if sec.chapterDistribution.isEmpty then
    [WizardError.specifyChapterDistribution i] else []) ++
  sec.chapterDistribution.flatMap (validateChapterEntry st i sec)

/-- `sections.forEach((section, index) => ...)` with the running index. -/
def validateSectionsAux (st : WizardState) : Nat → List SectionSetup →
    List WizardError
  | _, [] => []
  | i, sec :: rest => validateSection st i sec ++ validateSectionsAux st (i + 1) rest

/-- `validateSectionsStep` of `QuizGeneratorWizard.tsx` (lines 191–243). -/
def validateSectionsStep (st : WizardState) : List WizardError :=
  if st.sections.isEmpty then [WizardError.addAtLeastOneSection]
  else validateSectionsAux st 0 st.sections

/-- The per-section body of `sections.forEach` in `validateFiltersStep`. -/
def validateFilterSection (st : WizardState) (i : Nat) (sec : SectionSetup) :
    List WizardError :=
  if ((getFilteredQuestions st sec none none).length : Int) < sec.questionCount then
    [WizardError.notEnoughSection i sec.questionCount
      (getFilteredQuestions st sec none none).length]
  else []

/-- `sections.forEach((section, index) => ...)` of `validateFiltersStep`. -/
def validateFiltersAux (st : WizardState) : Nat → List SectionSetup →
    List WizardError
  | _, [] => []
  | i, sec :: rest =>
      validateFilterSection st i sec ++ validateFiltersAux st (i + 1) rest

/-- `validateFiltersStep` of `QuizGeneratorWizard.tsx` (lines 245–256). -/
def validateFiltersStep (st : WizardState) : List WizardError :=
  validateFiltersAux st 0 st.sections

/-- The wizard's `Step` type. -/
inductive Step where
  | exam
  | sections
  | filters
deriving DecidableEq, Repr

/-- The `canProceed` memo of `QuizGeneratorWizard.tsx` (lines 276–295). -/
def canProceed (st : WizardState) : Step → Bool
  | Step.exam => st.examType != ""
  | Step.sections =>
      !st.sections.isEmpty &&
      st.sections.all fun sec =>
        sec.subject != "" &&
        !sec.chapterDistribution.isEmpty &&
        sec.difficultyDistribution.total == 100 &&
        sec.typeDistribution.total == 100
  | Step.filters =>
      st.sections.all fun sec =>
        sec.questionCount ≤ ((getFilteredQuestions st sec none none).length : Int)

/-- `Math.round` on a (here: rational) value: round half towards +∞. -/
def jsRound (x : ℚ) : Int := ⌊x + 1 / 2⌋

/-- `Math.round(x * 10) / 10`: round to one decimal place. -/
def roundTo1 (x : ℚ) : ℚ := (jsRound (x * 10) : ℚ) / 10

/-- The per-chapter selection inside `handleGenerate` (lines 336–351): with
a non-empty topic list, take `topic.count` from each per-topic shuffled pool;
otherwise take `chapter.count` from the shuffled chapter pool. -/
def selectForChapter (st : WizardState) (shuffle : List Question → List Question)
    (setup : SectionSetup) (cd : ChapterDistribution) : List Question :=
  if cd.topics.length > 0 then
    cd.topics.flatMap fun t =>
      (shuffle (getFilteredQuestions st setup (some cd.chapter) (some t.topic))).take
        t.count.toNat
  else
    (shuffle (getFilteredQuestions st setup (some cd.chapter) none)).take
      cd.count.toNat

/-- The `sectionQuestions` array a single `sections.map` iteration of
`handleGenerate` accumulates. -/
def sectionQuestions (st : WizardState) (shuffle : List Question → List Question)
    (setup : SectionSetup) : List Question :=
  setup.chapterDistribution.flatMap (selectForChapter st shuffle setup)

/-- The `QuizSection` object literal returned for one setup by
`handleGenerate` (lines 353–360). -/
def generateSection (st : WizardState) (shuffle : List Question → List Question)
    (setup : SectionSetup) : QuizSection :=
  { id := setup.id
    name := setup.subject ++ " Section"
    timerEnabled := false
    marks := roundTo1 (100 / (setup.questionCount : ℚ))
    negativeMarks := roundTo1 (100 / (setup.questionCount : ℚ) * (1 / 4))
    questions := sectionQuestions st shuffle setup }

/-- `handleGenerate` of `QuizGeneratorWizard.tsx` (lines 329–364): `none`
models the early `return` when `canProceed` is false (so `onGenerate` is not
invoked and no state changes); `some sections` models the `onGenerate` call
with the generated sections. -/
def handleGenerate (st : WizardState)
    (shuffle : List Question → List Question) : Option (List QuizSection) :=
  if canProceed st Step.filters then
    some (st.sections.map (generateSection st shuffle))
  else none

end Quizapp

/-! ### Basic lemmas about the embedded operations -/

namespace Quizapp

/-- Unfolding of membership in a filtered question list. -/
lemma mem_getFilteredQuestions {st : WizardState} {sec : SectionSetup}
    {copt topt : Option String} {q : Question} :
    q ∈ getFilteredQuestions st sec copt topt ↔
      q ∈ st.questions ∧ questionPasses st sec copt topt q = true :=
  List.mem_filter

/-- The propositional content of the filter predicate. -/
lemma questionPasses_iff {st : WizardState} {sec : SectionSetup}
    {copt topt : Option String} {q : Question} :
    questionPasses st sec copt topt q = true ↔
      q.id ∉ st.usedQuestions ∧
      q.tags.exam_type = st.examType ∧
      q.tags.subject = sec.subject ∧
      chapterMatches copt q = true ∧
      topicMatches topt q = true ∧
      usedInOtherSections st.sections sec q = false := by
  simp [questionPasses, Bool.and_eq_true, and_assoc]

/-- `handleGenerate` succeeds exactly on `canProceed` for the filters step,
and then returns the mapped sections. -/
lemma handleGenerate_eq_some {st : WizardState}
    {shuffle : List Question → List Question} {out : List QuizSection} :
    handleGenerate st shuffle = some out ↔
      canProceed st Step.filters = true ∧
      out = st.sections.map (generateSection st shuffle) := by
  unfold handleGenerate
  cases h : canProceed st Step.filters <;> simp [h, eq_comm]

end Quizapp

/-! ### Concrete fixtures used by witnesses and counterexamples -/

namespace Quizapp

/-- The identity function is one possible outcome of the JavaScript
shuffle. -/
def idShuffle : List Question → List Question := fun l => l

/-- A question with exam type `E` and subject `S`. -/
def mkQ (i ch tp d qt : String) : Question :=
  { id := i
    tags :=
      { exam_type := "E", subject := "S", chapter := ch, topic := tp
        difficulty_level := d, question_type := qt } }

/-- The default difficulty percentages of `handleAddSection` (they sum to
100). -/
def baseDiff : DifficultyDistribution := { Easy := 30, Medium := 50, Hard := 20 }

/-- The default question-type percentages of `handleAddSection` (they sum to
100). -/
def baseType : TypeDistribution := { MCQ := 60, MMCQ := 20, Numeric := 20 }

/-- A section setup asking for two questions of chapter `A`, with no topic
distribution. -/
def wSetup : SectionSetup :=
  { id := "s1", subject := "S", questionCount := 2
    difficultyDistribution := baseDiff, typeDistribution := baseType
    chapterDistribution := [{ chapter := "A", count := 2, topics := [] }] }

/-- A wizard state with two available questions in chapter `A` and one
already-used question. -/
def wState : WizardState :=
  { questions :=
      [mkQ "q1" "A" "t1" "Easy" "MCQ", mkQ "q2" "A" "t2" "Easy" "MCQ",
       mkQ "used1" "A" "t1" "Easy" "MCQ"]
    usedQuestions := ["used1"]
    examType := "E"
    sections := [wSetup] }

/-- On the fixture state the generator fires and produces the one mapped
section. -/
lemma wState_handleGenerate :
    handleGenerate wState idShuffle = some [generateSection wState idShuffle wSetup] := by
  unfold handleGenerate
  rw [if_pos (by decide)]
  rfl

end Quizapp

/-! ### Claims -/

namespace Quizapp

/-- C8: on the filters step, `handleGenerate` invokes `onGenerate` (returns
`some`) exactly when every section's filtered available question count is at
least its `questionCount`; otherwise it returns `none` (no sections are
produced, no state changes). -/
theorem handleGenerate_iff_canProceed (st : WizardState)
    (shuffle : List Question → List Question) :
    ((handleGenerate st shuffle).isSome = true ↔
      ∀ sec ∈ st.sections,
        sec.questionCount ≤ ((getFilteredQuestions st sec none none).length : Int)) ∧
    (handleGenerate st shuffle = none ↔
      ¬ ∀ sec ∈ st.sections,
        sec.questionCount ≤ ((getFilteredQuestions st sec none none).length : Int)) := by
  have hcp : canProceed st Step.filters = true ↔
      ∀ sec ∈ st.sections,
        sec.questionCount ≤ ((getFilteredQuestions st sec none none).length : Int) := by
    simp [canProceed, List.all_eq_true]
  rw [← hcp]
  unfold handleGenerate
  cases h : canProceed st Step.filters <;> simp [h]

/-- C10: every generated section (for a setup with a positive question
count) has `timerEnabled = false`, name `subject ++ " Section"`, per-question
marks `100 / questionCount` rounded to one decimal place, and negative marks
`25 / questionCount` rounded to one decimal place. -/
theorem generated_section_metadata (st : WizardState)
    (shuffle : List Question → List Question) (out : List QuizSection)
    (k : Nat) (setup : SectionSetup) (s : QuizSection)
    (hgen : handleGenerate st shuffle = some out)
    (hsec : st.sections[k]? = some setup)
    (hout : out[k]? = some s)
    (hpos : 0 < setup.questionCount) :
    s.timerEnabled = false ∧
    s.name = setup.subject ++ " Section" ∧
    s.marks = roundTo1 (100 / (setup.questionCount : ℚ)) ∧
    s.negativeMarks = roundTo1 (25 / (setup.questionCount : ℚ)) := by
  obtain ⟨hc, rfl⟩ := handleGenerate_eq_some.mp hgen
  rw [List.getElem?_map, hsec] at hout
  have hs : s = generateSection st shuffle setup := (Option.some_inj.mp hout).symm
  subst hs
  refine ⟨rfl, rfl, rfl, ?_⟩
  show roundTo1 (100 / (setup.questionCount : ℚ) * (1 / 4)) =
    roundTo1 (25 / (setup.questionCount : ℚ))
  congr 1
  ring

/-- Witness for C10 on the concrete fixture state. -/
theorem generated_section_metadata_witness :
    (generateSection wState idShuffle wSetup).timerEnabled = false ∧
    (generateSection wState idShuffle wSetup).name = wSetup.subject ++ " Section" ∧
    (generateSection wState idShuffle wSetup).marks =
      roundTo1 (100 / (wSetup.questionCount : ℚ)) ∧
    (generateSection wState idShuffle wSetup).negativeMarks =
      roundTo1 (25 / (wSetup.questionCount : ℚ)) :=
  generated_section_metadata wState idShuffle _ 0 wSetup _
    wState_handleGenerate rfl rfl (by decide)

end Quizapp

namespace Quizapp

/-- Every question selected for a chapter entry comes from one of the
filtered pools for that chapter (the chapter pool or one of its topic
pools). -/
lemma mem_of_mem_selectForChapter {st : WizardState}
    {shuffle : List Question → List Question} {setup : SectionSetup}
    {cd : ChapterDistribution} {q : Question}
    (hsh : ∀ l, (shuffle l).Perm l)
    (hq : q ∈ selectForChapter st shuffle setup cd) :
    q ∈ getFilteredQuestions st setup (some cd.chapter) none ∨
      ∃ t ∈ cd.topics, q ∈ getFilteredQuestions st setup (some cd.chapter) (some t.topic) := by
  unfold selectForChapter at hq
  by_cases h : cd.topics.length > 0
  · rw [if_pos h] at hq
    obtain ⟨t, ht, hq'⟩ := List.mem_flatMap.mp hq
    exact Or.inr ⟨t, ht, (hsh _).subset (List.mem_of_mem_take hq')⟩
  · rw [if_neg h] at hq
    exact Or.inl ((hsh _).subset (List.mem_of_mem_take hq))

/-- Every question of a generated section comes from some filtered pool of
its setup. -/
lemma mem_of_mem_sectionQuestions {st : WizardState}
    {shuffle : List Question → List Question} {setup : SectionSetup}
    {q : Question}
    (hsh : ∀ l, (shuffle l).Perm l)
    (hq : q ∈ sectionQuestions st shuffle setup) :
    ∃ cd ∈ setup.chapterDistribution,
      (q ∈ getFilteredQuestions st setup (some cd.chapter) none ∨
       ∃ t ∈ cd.topics, q ∈ getFilteredQuestions st setup (some cd.chapter) (some t.topic)) := by
  obtain ⟨cd, hcd, hq'⟩ := List.mem_flatMap.mp hq
  exact ⟨cd, hcd, mem_of_mem_selectForChapter hsh hq'⟩

/-- C3: no question whose id belongs to `usedQuestions` ever appears in a
section produced by `handleGenerate` (for any shuffle outcome). -/
theorem handleGenerate_excludes_usedQuestions (st : WizardState)
    (shuffle : List Question → List Question)
    (hsh : ∀ l, (shuffle l).Perm l)
    (out : List QuizSection) (s : QuizSection) (q : Question)
    (hgen : handleGenerate st shuffle = some out)
    (hs : s ∈ out) (hq : q ∈ s.questions) :
    q.id ∉ st.usedQuestions := by
  obtain ⟨hc, rfl⟩ := handleGenerate_eq_some.mp hgen
  obtain ⟨setup, hsetup, rfl⟩ := List.mem_map.mp hs
  obtain ⟨cd, hcd, hpool⟩ := mem_of_mem_sectionQuestions hsh hq
  have hpass : questionPasses st setup (some cd.chapter) none q = true ∨
      questionPasses st setup (some cd.chapter) (some cd.chapter) q = true := by
    rcases hpool with h | ⟨t, ht, h⟩
    · exact Or.inl (mem_getFilteredQuestions.mp h).2
    · exact Or.inl ((questionPasses_iff.mpr
        (by
          obtain ⟨h1, h2, h3, h4, h5, h6⟩ := questionPasses_iff.mp
            (mem_getFilteredQuestions.mp h).2
          exact ⟨h1, h2, h3, h4, rfl, h6⟩)))
  rcases hpass with h | h
  · exact (questionPasses_iff.mp h).1
  · exact (questionPasses_iff.mp h).1

/-- Witness for C3: on the fixture state, question `q1` of the generated
section is not among the used ids. -/
theorem handleGenerate_excludes_usedQuestions_witness :
    (mkQ "q1" "A" "t1" "Easy" "MCQ").id ∉ wState.usedQuestions :=
  handleGenerate_excludes_usedQuestions wState idShuffle (fun l => List.Perm.refl l)
    [generateSection wState idShuffle wSetup] (generateSection wState idShuffle wSetup)
    (mkQ "q1" "A" "t1" "Easy" "MCQ") wState_handleGenerate
    (List.mem_singleton.mpr rfl) (by decide)

end Quizapp

namespace Quizapp

/-- The cross-section exclusion test, propositionally. -/
lemma usedInOtherSections_eq_true_iff {sections : List SectionSetup}
    {sec : SectionSetup} {q : Question} :
    usedInOtherSections sections sec q = true ↔
      ∃ s ∈ sections, s.id ≠ sec.id ∧ s.subject = q.tags.subject ∧
        ((∃ cd ∈ s.chapterDistribution, cd.chapter = q.tags.chapter) ∨
         (∃ cd ∈ s.chapterDistribution, ∃ t ∈ cd.topics, t.topic = q.tags.topic)) := by
  simp only [usedInOtherSections, List.any_eq_true, Bool.and_eq_true,
    Bool.or_eq_true, bne_iff_ne, beq_iff_eq]
  constructor
  · rintro ⟨s, hs, ⟨⟨hid, hsub⟩, hcd⟩⟩
    refine ⟨s, hs, hid, hsub, ?_⟩
    obtain ⟨cd, hcd, h | h⟩ := hcd
    · exact Or.inl ⟨cd, hcd, h⟩
    · obtain ⟨t, ht, h⟩ := h
      exact Or.inr ⟨cd, hcd, t, ht, h⟩
  · rintro ⟨s, hs, hid, hsub, h⟩
    refine ⟨s, hs, ⟨⟨hid, hsub⟩, ?_⟩⟩
    rcases h with ⟨cd, hcd, h⟩ | ⟨cd, hcd, t, ht, h⟩
    · exact ⟨cd, hcd, Or.inl h⟩
    · exact ⟨cd, hcd, Or.inr ⟨t, ht, h⟩⟩

/-- C4: for truthy (non-empty) chapter/topic arguments,
`getFilteredQuestions` returns exactly the questions of the pool that are
unused, match the exam type, the section's subject, the given chapter and
topic, and are not claimed by another section of the same subject via its
chapter distribution or one of its topic distributions. -/
theorem getFilteredQuestions_spec (st : WizardState) (sec : SectionSetup)
    (copt topt : Option String) (q : Question)
    (hc : ∀ c, copt = some c → c ≠ "")
    (ht : ∀ t, topt = some t → t ≠ "") :
    q ∈ getFilteredQuestions st sec copt topt ↔
      q ∈ st.questions ∧
      q.id ∉ st.usedQuestions ∧
      q.tags.exam_type = st.examType ∧
      q.tags.subject = sec.subject ∧
      (∀ c, copt = some c → q.tags.chapter = c) ∧
      (∀ t, topt = some t → q.tags.topic = t) ∧
      ¬ ∃ s ∈ st.sections, s.id ≠ sec.id ∧ s.subject = sec.subject ∧
          ((∃ cd ∈ s.chapterDistribution, cd.chapter = q.tags.chapter) ∨
           (∃ cd ∈ s.chapterDistribution, ∃ t ∈ cd.topics, t.topic = q.tags.topic)) := by
  rw [mem_getFilteredQuestions, questionPasses_iff]
  have hch : chapterMatches copt q = true ↔ (∀ c, copt = some c → q.tags.chapter = c) := by
    cases copt with
    | none => simp [chapterMatches]
    | some c =>
        have : c ≠ "" := hc c rfl
        simp [chapterMatches, this, eq_comm (a := c)]
  have htp : topicMatches topt q = true ↔ (∀ t, topt = some t → q.tags.topic = t) := by
    cases topt with
    | none => simp [topicMatches]
    | some t =>
        have : t ≠ "" := ht t rfl
        simp [topicMatches, this, eq_comm (a := t)]
  constructor
  · rintro ⟨hmem, h1, h2, h3, h4, h5, h6⟩
    refine ⟨hmem, h1, h2, h3, hch.mp h4, htp.mp h5, ?_⟩
    intro hcontra
    rw [← Bool.not_eq_true, usedInOtherSections_eq_true_iff] at h6
    apply h6
    obtain ⟨s, hs, hid, hsub, hrest⟩ := hcontra
    exact ⟨s, hs, hid, hsub.trans h3.symm, hrest⟩
  · rintro ⟨hmem, h1, h2, h3, h4, h5, h6⟩
    refine ⟨hmem, h1, h2, h3, hch.mpr h4, htp.mpr h5, ?_⟩
    rw [← Bool.not_eq_true, usedInOtherSections_eq_true_iff]
    intro hcontra
    apply h6
    obtain ⟨s, hs, hid, hsub, hrest⟩ := hcontra
    exact ⟨s, hs, hid, hsub.trans h3, hrest⟩

/-- Witness for C4: on the fixture state, `q1` satisfies all the
characterizing conditions, so it is in the chapter-`A`, topic-`t1` pool of
the section. -/
theorem getFilteredQuestions_spec_witness :
    mkQ "q1" "A" "t1" "Easy" "MCQ" ∈
      getFilteredQuestions wState wSetup (some "A") (some "t1") := by
  refine (getFilteredQuestions_spec wState wSetup (some "A") (some "t1")
    (mkQ "q1" "A" "t1" "Easy" "MCQ")
    (fun c h => by cases h; decide) (fun t h => by cases h; decide)).mpr
    ⟨by decide, by decide, by decide, by decide,
      fun c h => by cases h; rfl, fun t h => by cases h; rfl, by decide⟩

end Quizapp

namespace Quizapp

/-- The single topic entry of `c1cd`. -/
def c1topic : TopicDistribution := { topic := "t1", count := 1 }

/-- A chapter entry requesting 2 questions of chapter `A` with a topic
distribution listing only 1 question of topic `t1` (legal: 1 ≤ 2). -/
def c1cd : ChapterDistribution := { chapter := "A", count := 2, topics := [c1topic] }

/-- Setup whose chapter distribution is the single entry `c1cd`. -/
def c1setup : SectionSetup :=
  { id := "s1", subject := "S", questionCount := 2
    difficultyDistribution := baseDiff, typeDistribution := baseType
    chapterDistribution := [c1cd] }

/-- State with two available chapter-`A` questions for `c1setup`. -/
def c1st : WizardState :=
  { questions := [mkQ "q1" "A" "t1" "Easy" "MCQ", mkQ "q2" "A" "t2" "Easy" "MCQ"]
    usedQuestions := [], examType := "E", sections := [c1setup] }

/-- C1 counterexample: sections-step validation passes (no errors at all),
`handleGenerate` fires, but the generated section holds only 1 question of
chapter `A` although the chapter distribution requests 2 — with a topic
distribution present, only the topic counts are selected. -/
theorem handleGenerate_chapter_counts_cex :
    validateSectionsStep c1st = [] ∧
    (handleGenerate c1st idShuffle).map (List.map QuizSection.questions) =
      some [[mkQ "q1" "A" "t1" "Easy" "MCQ"]] ∧
    c1setup.chapterDistribution.map ChapterDistribution.count = [2] ∧
    ([[mkQ "q1" "A" "t1" "Easy" "MCQ"]].map
      (List.countP (fun q => q.tags.chapter == "A"))) = [1] ∧
    (1 : Int) ≠ 2 := by decide

/-- Setup whose difficulty percentages demand 100% `Hard` questions and
whose type percentages demand 100% `MCQ` (both total 100). -/
def c2setup : SectionSetup :=
  { id := "s1", subject := "S", questionCount := 2
    difficultyDistribution := { Easy := 0, Medium := 0, Hard := 100 }
    typeDistribution := { MCQ := 100, MMCQ := 0, Numeric := 0 }
    chapterDistribution := [{ chapter := "A", count := 2, topics := [] }] }

/-- State whose only available questions are both `Easy`, against
`c2setup`'s 100%-`Hard` demand. -/
def c2st : WizardState :=
  { questions := [mkQ "q1" "A" "t1" "Easy" "MCQ", mkQ "q2" "A" "t2" "Easy" "MCQ"]
    usedQuestions := [], examType := "E", sections := [c2setup] }

/-- C2 counterexample: both percentage rows total 100 and validation passes,
yet the generated section contains 0 `Hard` questions where the difficulty
distribution demands 100% of 2 = 2 — the selection never consults the
percentage distributions. -/
theorem handleGenerate_difficulty_distribution_cex :
    c2setup.difficultyDistribution.total = 100 ∧
    c2setup.typeDistribution.total = 100 ∧
    validateSectionsStep c2st = [] ∧
    (handleGenerate c2st idShuffle).map (List.map QuizSection.questions) =
      some [[mkQ "q1" "A" "t1" "Easy" "MCQ", mkQ "q2" "A" "t2" "Easy" "MCQ"]] ∧
    c2setup.difficultyDistribution.Hard * c2setup.questionCount / 100 = 2 ∧
    ([mkQ "q1" "A" "t1" "Easy" "MCQ", mkQ "q2" "A" "t2" "Easy" "MCQ"].countP
      (fun q => q.tags.difficulty_level == "Hard")) = 0 ∧
    (0 : Int) ≠ 2 := by decide

/-- A question that appears twice in the `c9st` pool. -/
def dupQ : Question := mkQ "q1" "A" "t1" "Easy" "MCQ"

/-- Setup requesting 2 questions of chapter `A` without topics. -/
def c9setup : SectionSetup :=
  { id := "s1", subject := "S", questionCount := 2
    difficultyDistribution := baseDiff, typeDistribution := baseType
    chapterDistribution := [{ chapter := "A", count := 2, topics := [] }] }

/-- State whose question pool contains the same question twice. -/
def c9st : WizardState :=
  { questions := [dupQ, dupQ]
    usedQuestions := [], examType := "E", sections := [c9setup] }

/-- C9 counterexample: with pairwise-distinct chapters and (vacuously)
distinct topics, a pool that lists the same question twice makes
`handleGenerate` emit that question twice in one section, so the selected
ids are not pairwise distinct. -/
theorem generated_section_duplicate_ids_cex :
    (c9setup.chapterDistribution.map ChapterDistribution.chapter).Nodup ∧
    c9setup.chapterDistribution.map ChapterDistribution.topics = [[]] ∧
    (handleGenerate c9st idShuffle).map (List.map QuizSection.questions) =
      some [[dupQ, dupQ]] ∧
    ¬ ([dupQ, dupQ].map Question.id).Nodup := by decide

end Quizapp

namespace Quizapp

/-- Replace every section's difficulty and question-type percentage rows
(and nothing else) in a wizard state. -/
def setDistributions (f : SectionSetup → DifficultyDistribution)
    (g : SectionSetup → TypeDistribution) (st : WizardState) : WizardState :=
  { st with sections := st.sections.map fun s =>
      { s with difficultyDistribution := f s, typeDistribution := g s } }

/-- The cross-section exclusion test ignores the percentage rows. -/
lemma usedInOtherSections_setDists (l : List SectionSetup)
    (f : SectionSetup → DifficultyDistribution)
    (g : SectionSetup → TypeDistribution) (sec : SectionSetup) (q : Question) :
    usedInOtherSections
      (l.map fun s => { s with difficultyDistribution := f s, typeDistribution := g s })
      sec q = usedInOtherSections l sec q := by
  induction l with
  | nil => rfl
  | cons a l ih =>
      unfold usedInOtherSections at *
      simp only [List.map_cons, List.any_cons]
      rw [ih]

/-- `getFilteredQuestions` ignores the percentage rows, of the queried
section and of all others. -/
lemma getFilteredQuestions_setDists (st : WizardState)
    (f : SectionSetup → DifficultyDistribution)
    (g : SectionSetup → TypeDistribution) (sec : SectionSetup)
    (copt topt : Option String) :
    getFilteredQuestions (setDistributions f g st)
      { sec with difficultyDistribution := f sec, typeDistribution := g sec }
      copt topt =
    getFilteredQuestions st sec copt topt := by
  unfold getFilteredQuestions setDistributions
  apply List.filter_congr
  intro q _
  unfold questionPasses
  rw [usedInOtherSections_setDists]
  rfl

/-- The per-chapter selection ignores the percentage rows. -/
lemma selectForChapter_setDists (st : WizardState)
    (shuffle : List Question → List Question)
    (f : SectionSetup → DifficultyDistribution)
    (g : SectionSetup → TypeDistribution) (setup : SectionSetup)
    (cd : ChapterDistribution) :
    selectForChapter (setDistributions f g st) shuffle
      { setup with difficultyDistribution := f setup, typeDistribution := g setup }
      cd = selectForChapter st shuffle setup cd := by
  unfold selectForChapter
  by_cases h : cd.topics.length > 0
  · rw [if_pos h, if_pos h]
    apply List.flatMap_congr
    intro t _
    rw [getFilteredQuestions_setDists]
  · rw [if_neg h, if_neg h, getFilteredQuestions_setDists]

end Quizapp

namespace Quizapp

/-- A generated section ignores the percentage rows of its setup and of the
whole state. -/
lemma generateSection_setDists (st : WizardState)
    (shuffle : List Question → List Question)
    (f : SectionSetup → DifficultyDistribution)
    (g : SectionSetup → TypeDistribution) (setup : SectionSetup) :
    generateSection (setDistributions f g st) shuffle
      { setup with difficultyDistribution := f setup, typeDistribution := g setup } =
    generateSection st shuffle setup := by
  have hq : sectionQuestions (setDistributions f g st) shuffle
      { setup with difficultyDistribution := f setup, typeDistribution := g setup } =
      sectionQuestions st shuffle setup := by
    unfold sectionQuestions
    apply List.flatMap_congr
    intro cd _
    exact selectForChapter_setDists st shuffle f g setup cd
  unfold generateSection
  rw [hq]

/-- `all` over a mapped list against a pointwise-equal predicate. -/
lemma all_map_congr {A B : Type} (l : List A) (h : A → B) (p : B → Bool)
    (q : A → Bool) (hp : ∀ a ∈ l, p (h a) = q a) :
    (l.map h).all p = l.all q := by
  induction l with
  | nil => rfl
  | cons a l ih =>
      simp only [List.map_cons, List.all_cons]
      rw [hp a (by simp), ih fun a ha => hp a (by simp [ha])]

/-- `map` over a mapped list against a pointwise-equal function. -/
lemma map_map_congr {A B C : Type} (l : List A) (h : A → B) (p : B → C)
    (q : A → C) (hp : ∀ a ∈ l, p (h a) = q a) :
    (l.map h).map p = l.map q := by
  induction l with
  | nil => rfl
  | cons a l ih =>
      simp only [List.map_cons]
      rw [hp a (by simp), ih fun a ha => hp a (by simp [ha])]

/-- The filters-step `canProceed` test ignores the percentage rows. -/
lemma canProceed_filters_setDists (st : WizardState)
    (f : SectionSetup → DifficultyDistribution)
    (g : SectionSetup → TypeDistribution) :
    canProceed (setDistributions f g st) Step.filters = canProceed st Step.filters := by
  show ((setDistributions f g st).sections.all _) = (st.sections.all _)
  rw [show (setDistributions f g st).sections = st.sections.map
    (fun s => { s with difficultyDistribution := f s, typeDistribution := g s }) from rfl]
  apply all_map_congr
  intro sec _
  simp only []
  rw [getFilteredQuestions_setDists]

/-- C2 amended: `handleGenerate` never consults the difficulty or
question-type percentage rows — replacing them arbitrarily in every section
leaves its result unchanged. -/
theorem handleGenerate_ignores_percentage_distributions (st : WizardState)
    (f : SectionSetup → DifficultyDistribution)
    (g : SectionSetup → TypeDistribution)
    (shuffle : List Question → List Question) :
    handleGenerate (setDistributions f g st) shuffle = handleGenerate st shuffle := by
  unfold handleGenerate
  rw [canProceed_filters_setDists]
  by_cases h : canProceed st Step.filters = true
  · rw [if_pos h, if_pos h]
    congr 1
    rw [show (setDistributions f g st).sections = st.sections.map
      (fun s => { s with difficultyDistribution := f s, typeDistribution := g s }) from rfl]
    apply map_map_congr
    intro setup _
    exact generateSection_setDists st shuffle f g setup
  · rw [if_neg h, if_neg h]

end Quizapp

namespace Quizapp

/-- Membership in a conditional singleton. -/
lemma mem_if_singleton {α : Type} {c : Prop} [Decidable c] {e x : α} :
    e ∈ (if c then [x] else ([] : List α)) ↔ c ∧ e = x := by
  split <;> simp_all

/-- Membership in the indexed fold of `validateSectionsStep`'s `forEach`. -/
lemma mem_validateSectionsAux {st : WizardState} {e : WizardError} :
    ∀ (start : Nat) (l : List SectionSetup),
      e ∈ validateSectionsAux st start l ↔
        ∃ j sec, l[j]? = some sec ∧ e ∈ validateSection st (start + j) sec := by
  intro start l
  induction l generalizing start with
  | nil => simp [validateSectionsAux]
  | cons a l ih =>
      simp only [validateSectionsAux, List.mem_append, ih (start + 1)]
      constructor
      · rintro (h | ⟨j, sec, hj, hmem⟩)
        · exact ⟨0, a, by simp, by simpa using h⟩
        · exact ⟨j + 1, sec, by simpa using hj, by
            have : start + 1 + j = start + (j + 1) := by omega
            rwa [this] at hmem⟩
      · rintro ⟨j, sec, hj, hmem⟩
        cases j with
        | zero =>
            left
            simp only [List.getElem?_cons_zero, Option.some_inj] at hj
            subst hj
            simpa using hmem
        | succ j =>
            right
            refine ⟨j, sec, by simpa using hj, ?_⟩
            have : start + (j + 1) = start + 1 + j := by omega
            rwa [this] at hmem

/-- Membership in the indexed fold of `validateFiltersStep`'s `forEach`. -/
lemma mem_validateFiltersAux {st : WizardState} {e : WizardError} :
    ∀ (start : Nat) (l : List SectionSetup),
      e ∈ validateFiltersAux st start l ↔
        ∃ j sec, l[j]? = some sec ∧ e ∈ validateFilterSection st (start + j) sec := by
  intro start l
  induction l generalizing start with
  | nil => simp [validateFiltersAux]
  | cons a l ih =>
      simp only [validateFiltersAux, List.mem_append, ih (start + 1)]
      constructor
      · rintro (h | ⟨j, sec, hj, hmem⟩)
        · exact ⟨0, a, by simp, by simpa using h⟩
        · exact ⟨j + 1, sec, by simpa using hj, by
            have : start + 1 + j = start + (j + 1) := by omega
            rwa [this] at hmem⟩
      · rintro ⟨j, sec, hj, hmem⟩
        cases j with
        | zero =>
            left
            simp only [List.getElem?_cons_zero, Option.some_inj] at hj
            subst hj
            simpa using hmem
        | succ j =>
            right
            refine ⟨j, sec, by simpa using hj, ?_⟩
            have : start + (j + 1) = start + 1 + j := by omega
            rwa [this] at hmem

end Quizapp

namespace Quizapp

/-- Which difficulty-total errors one section contributes. -/
lemma difficultyTotal_mem_validateSection {st : WizardState} {m n : Nat}
    {sec : SectionSetup} :
    WizardError.difficultyTotal n ∈ validateSection st m sec ↔
      sec.difficultyDistribution.total ≠ 100 ∧ n = m := by
  simp [validateSection, validateChapterEntry, validateTopicEntry,
    mem_if_singleton, List.mem_append, List.mem_flatMap]

/-- Which type-total errors one section contributes. -/
lemma typeTotal_mem_validateSection {st : WizardState} {m n : Nat}
    {sec : SectionSetup} :
    WizardError.typeTotal n ∈ validateSection st m sec ↔
      sec.typeDistribution.total ≠ 100 ∧ n = m := by
  simp [validateSection, validateChapterEntry, validateTopicEntry,
    mem_if_singleton, List.mem_append, List.mem_flatMap]

/-- Which chapter-availability errors one section contributes. -/
lemma notEnoughChapter_mem_validateSection {st : WizardState} {m n : Nat}
    {sec : SectionSetup} {ch : String} {need : Int} {avail : Nat} :
    WizardError.notEnoughChapter n ch need avail ∈ validateSection st m sec ↔
      ∃ cd ∈ sec.chapterDistribution,
        ((getFilteredQuestions st sec (some cd.chapter) none).length : Int) < cd.count ∧
        n = m ∧ ch = cd.chapter ∧ need = cd.count ∧
        avail = (getFilteredQuestions st sec (some cd.chapter) none).length := by
  simp [validateSection, validateChapterEntry, validateTopicEntry,
    mem_if_singleton, List.mem_append, List.mem_flatMap]

/-- Which topic-availability errors one section contributes. -/
lemma notEnoughTopic_mem_validateSection {st : WizardState} {m n : Nat}
    {sec : SectionSetup} {ch tp : String} {need : Int} {avail : Nat} :
    WizardError.notEnoughTopic n ch tp need avail ∈ validateSection st m sec ↔
      ∃ cd ∈ sec.chapterDistribution, ∃ t ∈ cd.topics,
        ((getFilteredQuestions st sec (some cd.chapter) (some t.topic)).length : Int)
          < t.count ∧
        n = m ∧ ch = cd.chapter ∧ tp = t.topic ∧ need = t.count ∧
        avail = (getFilteredQuestions st sec (some cd.chapter) (some t.topic)).length := by
  simp [validateSection, validateChapterEntry, validateTopicEntry,
    mem_if_singleton, List.mem_append, List.mem_flatMap]

/-- Which topic-total errors one section contributes. -/
lemma topicExceedsChapter_mem_validateSection {st : WizardState} {m n : Nat}
    {sec : SectionSetup} {ch : String} {tt cc : Int} :
    WizardError.topicExceedsChapter n ch tt cc ∈ validateSection st m sec ↔
      ∃ cd ∈ sec.chapterDistribution,
        cd.count < cd.topicTotal ∧
        n = m ∧ ch = cd.chapter ∧ tt = cd.topicTotal ∧ cc = cd.count := by
  simp [validateSection, validateChapterEntry, validateTopicEntry,
    mem_if_singleton, List.mem_append, List.mem_flatMap]

/-- Which errors one section contributes in `validateFiltersStep`. -/
lemma notEnoughSection_mem_validateFilterSection {st : WizardState} {m n : Nat}
    {sec : SectionSetup} {need : Int} {avail : Nat} :
    WizardError.notEnoughSection n need avail ∈ validateFilterSection st m sec ↔
      ((getFilteredQuestions st sec none none).length : Int) < sec.questionCount ∧
      n = m ∧ need = sec.questionCount ∧
      avail = (getFilteredQuestions st sec none none).length := by
  simp [validateFilterSection, mem_if_singleton]

end Quizapp

namespace Quizapp

/-- A state holding a section cannot have an empty section list. -/
lemma sections_isEmpty_false {st : WizardState} {i : Nat} {sec : SectionSetup}
    (h : st.sections[i]? = some sec) : st.sections.isEmpty = false := by
  cases l : st.sections with
  | nil => rw [l] at h; simp at h
  | cons a t => simp [l]

/-- C5: `validateSectionsStep` reports the difficulty-total (resp.
type-total) error for section `i` exactly when that section's three
difficulty (resp. question-type) percentages do not sum to 100. -/
theorem validateSectionsStep_percentage_errors (st : WizardState) (i : Nat)
    (sec : SectionSetup) (h : st.sections[i]? = some sec) :
    (WizardError.difficultyTotal i ∈ validateSectionsStep st ↔
      sec.difficultyDistribution.total ≠ 100) ∧
    (WizardError.typeTotal i ∈ validateSectionsStep st ↔
      sec.typeDistribution.total ≠ 100) := by
  unfold validateSectionsStep
  rw [sections_isEmpty_false h]
  simp only [Bool.false_eq_true, if_false]
  constructor
  · rw [mem_validateSectionsAux]
    constructor
    · rintro ⟨j, sec', hj, hmem⟩
      obtain ⟨hcond, hij⟩ := difficultyTotal_mem_validateSection.mp hmem
      rw [show j = i by omega] at hj
      rw [h] at hj
      rwa [← Option.some_inj.mp hj] at hcond
    · intro hcond
      exact ⟨i, sec, by simpa using h,
        difficultyTotal_mem_validateSection.mpr ⟨hcond, by omega⟩⟩
  · rw [mem_validateSectionsAux]
    constructor
    · rintro ⟨j, sec', hj, hmem⟩
      obtain ⟨hcond, hij⟩ := typeTotal_mem_validateSection.mp hmem
      rw [show j = i by omega] at hj
      rw [h] at hj
      rwa [← Option.some_inj.mp hj] at hcond
    · intro hcond
      exact ⟨i, sec, by simpa using h,
        typeTotal_mem_validateSection.mpr ⟨hcond, by omega⟩⟩

/-- Witness for C5 on the fixture state (both totals are exactly 100, so
neither error is reported). -/
theorem validateSectionsStep_percentage_errors_witness :
    (WizardError.difficultyTotal 0 ∈ validateSectionsStep wState ↔
      wSetup.difficultyDistribution.total ≠ 100) ∧
    (WizardError.typeTotal 0 ∈ validateSectionsStep wState ↔
      wSetup.typeDistribution.total ≠ 100) :=
  validateSectionsStep_percentage_errors wState 0 wSetup rfl

/-- C6: `validateSectionsStep` reports the topic-distribution error for a
chapter of section `i` exactly when that chapter's topic counts sum to
strictly more than the chapter's requested count. -/
theorem validateSectionsStep_topic_total_error (st : WizardState) (i : Nat)
    (sec : SectionSetup) (h : st.sections[i]? = some sec) :
    ∀ cd ∈ sec.chapterDistribution,
      (WizardError.topicExceedsChapter i cd.chapter cd.topicTotal cd.count ∈
          validateSectionsStep st ↔ cd.count < cd.topicTotal) := by
  intro cd hcd
  unfold validateSectionsStep
  rw [sections_isEmpty_false h]
  simp only [Bool.false_eq_true, if_false]
  rw [mem_validateSectionsAux]
  constructor
  · rintro ⟨j, sec', hj, hmem⟩
    obtain ⟨cd', hcd', hcond, hij, hch, htt, hcc⟩ :=
      topicExceedsChapter_mem_validateSection.mp hmem
    rw [← htt, ← hcc] at hcond
    exact hcond
  · intro hcond
    exact ⟨i, sec, by simpa using h,
      topicExceedsChapter_mem_validateSection.mpr
        ⟨cd, hcd, hcond, by omega, rfl, rfl, rfl⟩⟩

/-- Witness for C6 on the fixture state `c1st` and its chapter entry `c1cd`
(topic total 1 does not exceed chapter count 2, so no error is reported). -/
theorem validateSectionsStep_topic_total_error_witness :
    WizardError.topicExceedsChapter 0 c1cd.chapter c1cd.topicTotal c1cd.count ∈
        validateSectionsStep c1st ↔ c1cd.count < c1cd.topicTotal :=
  validateSectionsStep_topic_total_error c1st 0 c1setup rfl c1cd (by decide)

end Quizapp

namespace Quizapp

/-- C7: a "Not enough questions available" error is reported for a scope —
chapter or topic of a section in `validateSectionsStep`, whole section in
`validateFiltersStep` — exactly when the filtered question count for that
scope is strictly below the requested count. -/
theorem validation_not_enough_errors (st : WizardState) (i : Nat)
    (sec : SectionSetup) (h : st.sections[i]? = some sec) :
    (∀ cd ∈ sec.chapterDistribution,
      (WizardError.notEnoughChapter i cd.chapter cd.count
          (getFilteredQuestions st sec (some cd.chapter) none).length ∈
        validateSectionsStep st ↔
        ((getFilteredQuestions st sec (some cd.chapter) none).length : Int) < cd.count)) ∧
    (∀ cd ∈ sec.chapterDistribution, ∀ t ∈ cd.topics,
      (WizardError.notEnoughTopic i cd.chapter t.topic t.count
          (getFilteredQuestions st sec (some cd.chapter) (some t.topic)).length ∈
        validateSectionsStep st ↔
        ((getFilteredQuestions st sec (some cd.chapter) (some t.topic)).length : Int)
          < t.count)) ∧
    (WizardError.notEnoughSection i sec.questionCount
        (getFilteredQuestions st sec none none).length ∈ validateFiltersStep st ↔
      ((getFilteredQuestions st sec none none).length : Int) < sec.questionCount) := by
  refine ⟨?_, ?_, ?_⟩
  · intro cd hcd
    unfold validateSectionsStep
    rw [sections_isEmpty_false h]
    simp only [Bool.false_eq_true, if_false]
    rw [mem_validateSectionsAux]
    constructor
    · rintro ⟨j, sec', hj, hmem⟩
      obtain ⟨cd', hcd', hcond, hij, hch, hneed, havail⟩ :=
        notEnoughChapter_mem_validateSection.mp hmem
      have hsec : sec = sec' := by
        rw [show j = i by omega] at hj
        rw [h] at hj
        exact Option.some_inj.mp hj
      rw [← hsec] at hcond
      rw [← hch, ← hneed] at hcond
      exact hcond
    · intro hcond
      exact ⟨i, sec, by simpa using h,
        notEnoughChapter_mem_validateSection.mpr
          ⟨cd, hcd, hcond, by omega, rfl, rfl, rfl⟩⟩
  · intro cd hcd t ht
    unfold validateSectionsStep
    rw [sections_isEmpty_false h]
    simp only [Bool.false_eq_true, if_false]
    rw [mem_validateSectionsAux]
    constructor
    · rintro ⟨j, sec', hj, hmem⟩
      obtain ⟨cd', hcd', t', ht', hcond, hij, hch, htp, hneed, havail⟩ :=
        notEnoughTopic_mem_validateSection.mp hmem
      have hsec : sec = sec' := by
        rw [show j = i by omega] at hj
        rw [h] at hj
        exact Option.some_inj.mp hj
      rw [← hsec] at hcond
      rw [← hch, ← htp, ← hneed] at hcond
      exact hcond
    · intro hcond
      exact ⟨i, sec, by simpa using h,
        notEnoughTopic_mem_validateSection.mpr
          ⟨cd, hcd, t, ht, hcond, by omega, rfl, rfl, rfl, rfl⟩⟩
  · unfold validateFiltersStep
    rw [mem_validateFiltersAux]
    constructor
    · rintro ⟨j, sec', hj, hmem⟩
      obtain ⟨hcond, hij, hneed, havail⟩ :=
        notEnoughSection_mem_validateFilterSection.mp hmem
      have hsec : sec = sec' := by
        rw [show j = i by omega] at hj
        rw [h] at hj
        exact Option.some_inj.mp hj
      rw [← hsec] at hcond
      exact hcond
    · intro hcond
      exact ⟨i, sec, by simpa using h,
        notEnoughSection_mem_validateFilterSection.mpr
          ⟨hcond, by omega, rfl, rfl⟩⟩

/-- Witness for C7 on the fixture state `c1st`, instantiated at its chapter
entry `c1cd` and topic entry `c1topic` (all three scopes have enough
questions, so no error is reported). -/
theorem validation_not_enough_errors_witness :
    (WizardError.notEnoughChapter 0 c1cd.chapter c1cd.count
        (getFilteredQuestions c1st c1setup (some c1cd.chapter) none).length ∈
      validateSectionsStep c1st ↔
      ((getFilteredQuestions c1st c1setup (some c1cd.chapter) none).length : Int)
        < c1cd.count) ∧
    (WizardError.notEnoughTopic 0 c1cd.chapter c1topic.topic c1topic.count
        (getFilteredQuestions c1st c1setup (some c1cd.chapter) (some c1topic.topic)).length ∈
      validateSectionsStep c1st ↔
      ((getFilteredQuestions c1st c1setup (some c1cd.chapter)
          (some c1topic.topic)).length : Int) < c1topic.count) ∧
    (WizardError.notEnoughSection 0 c1setup.questionCount
        (getFilteredQuestions c1st c1setup none none).length ∈
        validateFiltersStep c1st ↔
      ((getFilteredQuestions c1st c1setup none none).length : Int)
        < c1setup.questionCount) := by
  obtain ⟨hA, hB, hC⟩ := validation_not_enough_errors c1st 0 c1setup rfl
  exact ⟨hA c1cd (by decide), hB c1cd (by decide) c1topic (by decide), hC⟩

end Quizapp

namespace Quizapp

/-- A truthy chapter argument pins down the chapter tag. -/
lemma chapterMatches_some_eq {c : String} {q : Question} (hc : c ≠ "")
    (h : chapterMatches (some c) q = true) : q.tags.chapter = c := by
  simp [chapterMatches, hc] at h
  exact h

/-- A truthy topic argument pins down the topic tag. -/
lemma topicMatches_some_eq {t : String} {q : Question} (ht : t ≠ "")
    (h : topicMatches (some t) q = true) : q.tags.topic = t := by
  simp [topicMatches, ht] at h
  exact h

/-- Every question selected for a chapter entry with a non-empty chapter
name carries that chapter tag. -/
lemma chapter_of_mem_selectForChapter {st : WizardState}
    {shuffle : List Question → List Question} {setup : SectionSetup}
    {cd : ChapterDistribution} {q : Question}
    (hsh : ∀ l, (shuffle l).Perm l) (hne : cd.chapter ≠ "")
    (hq : q ∈ selectForChapter st shuffle setup cd) :
    q.tags.chapter = cd.chapter := by
  rcases mem_of_mem_selectForChapter hsh hq with h | ⟨t, _, h⟩ <;>
    exact chapterMatches_some_eq hne
      (questionPasses_iff.mp (mem_getFilteredQuestions.mp h).2).2.2.2.1

/-- Tags of a question taken from a per-topic pool. -/
lemma tags_of_mem_topic_take {st : WizardState}
    {shuffle : List Question → List Question} {setup : SectionSetup}
    {cd : ChapterDistribution} {t : TopicDistribution} {n : Nat} {q : Question}
    (hsh : ∀ l, (shuffle l).Perm l) (hne : cd.chapter ≠ "") (htne : t.topic ≠ "")
    (hq : q ∈ (shuffle (getFilteredQuestions st setup (some cd.chapter) (some t.topic))).take n) :
    q.tags.chapter = cd.chapter ∧ q.tags.topic = t.topic := by
  have hmem := (hsh _).subset (List.mem_of_mem_take hq)
  obtain ⟨-, hpass⟩ := mem_getFilteredQuestions.mp hmem
  obtain ⟨-, -, -, h4, h5, -⟩ := questionPasses_iff.mp hpass
  exact ⟨chapterMatches_some_eq hne h4, topicMatches_some_eq htne h5⟩

/-- Collapsing a mapped sum whose entries vanish away from a unique key. -/
lemma sum_map_eq_of_unique {α β : Type} (l : List α) (key : α → β)
    (hnd : (l.map key).Nodup) (x : α) (hx : x ∈ l) (g : α → Nat)
    (h0 : ∀ y ∈ l, key y ≠ key x → g y = 0) :
    (l.map g).sum = g x := by
  induction l with
  | nil => cases hx
  | cons a l ih =>
      simp only [List.map_cons, List.sum_cons]
      rw [List.map_cons] at hnd
      obtain ⟨hka, hnd'⟩ := List.nodup_cons.mp hnd
      rcases List.mem_cons.mp hx with rfl | hx'
      · have hz : (l.map g).sum = 0 := by
          apply List.sum_eq_zero
          intro z hz'
          obtain ⟨y, hy, rfl⟩ := List.mem_map.mp hz'
          refine h0 y (List.mem_cons_of_mem _ hy) fun hk => hka ?_
          rw [← hk]
          exact List.mem_map_of_mem key hy
        rw [hz, Nat.add_zero]
      · have ha : g a = 0 := by
          refine h0 a (List.mem_cons_self a l) fun hk => hka ?_
          rw [hk]
          exact List.mem_map_of_mem key hx'
        rw [ha, Nat.zero_add]
        exact ih hnd' hx' fun y hy hk => h0 y (List.mem_cons_of_mem _ hy) hk

/-- Casting a sum of truncations of non-negative integers. -/
lemma sum_toNat_eq {l : List Int} (h : ∀ x ∈ l, 0 ≤ x) :
    (((l.map Int.toNat).sum : Nat) : Int) = l.sum := by
  induction l with
  | nil => rfl
  | cons a l ih =>
      simp only [List.map_cons, List.sum_cons, Nat.cast_add]
      rw [Int.toNat_of_nonneg (h a (by simp)), ih fun x hx => h x (by simp [hx])]

end Quizapp

namespace Quizapp

/-- Exact chapter/topic counts of the questions a single setup accumulates,
under the sections-step availability conditions: a chapter entry without a
topic distribution contributes exactly its requested count; one with a topic
distribution contributes exactly each topic's requested count, hence in
total the sum of its topic counts. -/
lemma countP_sectionQuestions_eq (st : WizardState)
    (shuffle : List Question → List Question) (setup : SectionSetup)
    (hsh : ∀ l, (shuffle l).Perm l)
    (hnodup : (setup.chapterDistribution.map ChapterDistribution.chapter).Nodup)
    (hchne : ∀ cd' ∈ setup.chapterDistribution, cd'.chapter ≠ "")
    (cd : ChapterDistribution) (hcd : cd ∈ setup.chapterDistribution)
    (hcount0 : 0 ≤ cd.count)
    (havail : cd.count ≤
      ((getFilteredQuestions st setup (some cd.chapter) none).length : Int))
    (htnodup : (cd.topics.map TopicDistribution.topic).Nodup)
    (htne : ∀ t ∈ cd.topics, t.topic ≠ "")
    (ht0 : ∀ t ∈ cd.topics, 0 ≤ t.count)
    (htavail : ∀ t ∈ cd.topics,
      t.count ≤
        ((getFilteredQuestions st setup (some cd.chapter) (some t.topic)).length : Int)) :
    (cd.topics = [] →
      (((sectionQuestions st shuffle setup).countP
          fun q => q.tags.chapter == cd.chapter) : Int) = cd.count) ∧
    (∀ t ∈ cd.topics,
      (((sectionQuestions st shuffle setup).countP
          fun q => q.tags.chapter == cd.chapter && q.tags.topic == t.topic) : Int)
        = t.count) ∧
    (cd.topics ≠ [] →
      (((sectionQuestions st shuffle setup).countP
          fun q => q.tags.chapter == cd.chapter) : Int) = cd.topicTotal) := by
  have hcollapse : ∀ p : Question → Bool,
      (∀ q, p q = true → q.tags.chapter = cd.chapter) →
      (sectionQuestions st shuffle setup).countP p =
        (selectForChapter st shuffle setup cd).countP p := by
    intro p hp
    unfold sectionQuestions
    rw [List.countP_flatMap]
    refine sum_map_eq_of_unique _ ChapterDistribution.chapter hnodup cd hcd _ ?_
    intro cd' hcd' hne'
    rw [Function.comp_apply, List.countP_eq_zero]
    intro q hq hpq
    exact hne'
      ((chapter_of_mem_selectForChapter hsh (hchne cd' hcd') hq).symm.trans (hp q hpq))
  refine ⟨?_, ?_, ?_⟩
  · -- no topic distribution: exactly the chapter count
    intro htop
    rw [hcollapse _ fun q hq => by simpa using hq]
    unfold selectForChapter
    rw [if_neg (by simp [htop])]
    rw [List.countP_eq_length.mpr ?_]
    · rw [List.length_take, (hsh _).length_eq]
      omega
    · intro q hq
      have := chapterMatches_some_eq (hchne cd hcd)
        (questionPasses_iff.mp
          (mem_getFilteredQuestions.mp
            ((hsh _).subset (List.mem_of_mem_take hq))).2).2.2.2.1
      simp [this]
  · -- per-topic counts
    intro t ht
    have hlen0 : cd.topics.length > 0 := List.length_pos.mpr (List.ne_nil_of_mem ht)
    rw [hcollapse _ fun q hq => by
      simp only [Bool.and_eq_true, beq_iff_eq] at hq
      exact hq.1]
    unfold selectForChapter
    rw [if_pos hlen0, List.countP_flatMap]
    rw [sum_map_eq_of_unique cd.topics TopicDistribution.topic htnodup t ht _ ?_]
    · rw [Function.comp_apply, List.countP_eq_length.mpr ?_]
      · rw [List.length_take, (hsh _).length_eq]
        have h1 := htavail t ht
        have h2 := ht0 t ht
        omega
      · intro q hq
        obtain ⟨hc, htq⟩ :=
          tags_of_mem_topic_take hsh (hchne cd hcd) (htne t ht) hq
        simp [hc, htq]
    · intro t' ht' hne'
      rw [Function.comp_apply, List.countP_eq_zero]
      intro q hq hpq
      obtain ⟨hc, htq⟩ :=
        tags_of_mem_topic_take hsh (hchne cd hcd) (htne t' ht') hq
      simp only [Bool.and_eq_true, beq_iff_eq] at hpq
      exact hne' (htq.symm.trans hpq.2)
  · -- with a topic distribution: exactly the sum of the topic counts
    intro htop
    have hlen0 : cd.topics.length > 0 := List.length_pos.mpr htop
    rw [hcollapse _ fun q hq => by simpa using hq]
    unfold selectForChapter
    rw [if_pos hlen0, List.countP_flatMap]
    have hmapeq : List.map
        ((List.countP fun q => q.tags.chapter == cd.chapter) ∘ fun t =>
          (shuffle (getFilteredQuestions st setup (some cd.chapter) (some t.topic))).take
            t.count.toNat)
        cd.topics = List.map (fun t' => t'.count.toNat) cd.topics := by
      refine List.map_congr_left ?_
      intro t' ht'
      rw [Function.comp_apply, List.countP_eq_length.mpr ?_]
      · rw [List.length_take, (hsh _).length_eq]
        have h1 := htavail t' ht'
        have h2 := ht0 t' ht'
        omega
      · intro q hq
        have := chapterMatches_some_eq (hchne cd hcd)
          (questionPasses_iff.mp
            (mem_getFilteredQuestions.mp
              ((hsh _).subset (List.mem_of_mem_take hq))).2).2.2.2.1
        simp [this]
    rw [hmapeq]
    unfold ChapterDistribution.topicTotal
    rw [show List.map (fun t' => t'.count.toNat) cd.topics =
        (cd.topics.map TopicDistribution.count).map Int.toNat from by
      rw [List.map_map]
      rfl]
    refine sum_toNat_eq ?_
    intro x hx
    obtain ⟨t', ht', rfl⟩ := List.mem_map.mp hx
    exact ht0 t' ht'

end Quizapp

namespace Quizapp

/-- Every accumulated question comes from the state's question pool. -/
lemma mem_questions_of_mem_sectionQuestions {st : WizardState}
    {shuffle : List Question → List Question} {setup : SectionSetup} {q : Question}
    (hsh : ∀ l, (shuffle l).Perm l)
    (hq : q ∈ sectionQuestions st shuffle setup) : q ∈ st.questions := by
  obtain ⟨cd, -, h | ⟨t, -, h⟩⟩ := mem_of_mem_sectionQuestions hsh hq <;>
    exact (mem_getFilteredQuestions.mp h).1

/-- Ids of the questions one setup accumulates are pairwise distinct,
provided the pool's ids are, the chapters of the distribution are pairwise
distinct with non-empty names, and each chapter's topics are pairwise
distinct with non-empty names. -/
lemma nodup_sectionQuestions (st : WizardState)
    (shuffle : List Question → List Question) (setup : SectionSetup)
    (hsh : ∀ l, (shuffle l).Perm l)
    (hids : (st.questions.map Question.id).Nodup)
    (hnodup : (setup.chapterDistribution.map ChapterDistribution.chapter).Nodup)
    (hchne : ∀ cd ∈ setup.chapterDistribution, cd.chapter ≠ "")
    (htnodup : ∀ cd ∈ setup.chapterDistribution,
      (cd.topics.map TopicDistribution.topic).Nodup)
    (htne : ∀ cd ∈ setup.chapterDistribution, ∀ t ∈ cd.topics, t.topic ≠ "") :
    ((sectionQuestions st shuffle setup).map Question.id).Nodup := by
  have hqnodup : st.questions.Nodup := List.Nodup.of_map _ hids
  have htake : ∀ (copt topt : Option String) (n : Nat),
      ((shuffle (getFilteredQuestions st setup copt topt)).take n).Nodup :=
    fun copt topt n =>
      (List.take_sublist _ _).nodup
        (((hsh _).nodup_iff).mpr (List.Nodup.filter _ hqnodup))
  have helem : (sectionQuestions st shuffle setup).Nodup := by
    unfold sectionQuestions
    rw [List.flatMap_def, List.nodup_flatten]
    constructor
    · intro piece hpiece
      obtain ⟨cd, hcd, rfl⟩ := List.mem_map.mp hpiece
      unfold selectForChapter
      by_cases h : cd.topics.length > 0
      · rw [if_pos h, List.flatMap_def, List.nodup_flatten]
        constructor
        · intro piece2 hp2
          obtain ⟨t, -, rfl⟩ := List.mem_map.mp hp2
          exact htake _ _ _
        · rw [List.pairwise_map]
          refine List.Pairwise.imp_of_mem ?_
            (List.pairwise_map.mp (htnodup cd hcd))
          intro a b ha hb hne q hqa hqb
          obtain ⟨-, hta⟩ :=
            tags_of_mem_topic_take hsh (hchne cd hcd) (htne cd hcd a ha) hqa
          obtain ⟨-, htb⟩ :=
            tags_of_mem_topic_take hsh (hchne cd hcd) (htne cd hcd b hb) hqb
          exact hne (hta.symm.trans htb)
      · rw [if_neg h]
        exact htake _ _ _
    · rw [List.pairwise_map]
      refine List.Pairwise.imp_of_mem ?_ (List.pairwise_map.mp hnodup)
      intro a b ha hb hne q hqa hqb
      have hca := chapter_of_mem_selectForChapter hsh (hchne a ha) hqa
      have hcb := chapter_of_mem_selectForChapter hsh (hchne b hb) hqb
      exact hne (hca.symm.trans hcb)
  refine List.Nodup.map_on ?_ helem
  intro x hx y hy hxy
  exact List.inj_on_of_nodup_map hids
    (mem_questions_of_mem_sectionQuestions hsh hx)
    (mem_questions_of_mem_sectionQuestions hsh hy) hxy

end Quizapp

namespace Quizapp

/-- C1 (amended): when sections-step validation passes for a chapter entry
(availability per chapter and per topic, non-negative requested counts,
pairwise-distinct non-empty chapter and topic names), the generated section
contains, for a chapter entry without topic distribution, exactly the
entry's requested count of questions tagged with that chapter; for an entry
with a topic distribution, exactly each listed topic's requested count of
questions tagged with that chapter and topic — hence in total the sum of
the topic counts, which may be fewer than the chapter's requested count. -/
theorem handleGenerate_chapter_topic_counts (st : WizardState)
    (shuffle : List Question → List Question) (out : List QuizSection)
    (k : Nat) (setup : SectionSetup) (s : QuizSection)
    (hsh : ∀ l, (shuffle l).Perm l)
    (hgen : handleGenerate st shuffle = some out)
    (hsec : st.sections[k]? = some setup)
    (hout : out[k]? = some s)
    (hnodup : (setup.chapterDistribution.map ChapterDistribution.chapter).Nodup)
    (hchne : ∀ cd' ∈ setup.chapterDistribution, cd'.chapter ≠ "")
    (cd : ChapterDistribution) (hcd : cd ∈ setup.chapterDistribution)
    (hcount0 : 0 ≤ cd.count)
    (havail : cd.count ≤
      ((getFilteredQuestions st setup (some cd.chapter) none).length : Int))
    (htnodup : (cd.topics.map TopicDistribution.topic).Nodup)
    (htne : ∀ t ∈ cd.topics, t.topic ≠ "")
    (ht0 : ∀ t ∈ cd.topics, 0 ≤ t.count)
    (htavail : ∀ t ∈ cd.topics,
      t.count ≤
        ((getFilteredQuestions st setup (some cd.chapter) (some t.topic)).length : Int)) :
    (cd.topics = [] →
      ((s.questions.countP fun q => q.tags.chapter == cd.chapter) : Int) = cd.count) ∧
    (∀ t ∈ cd.topics,
      ((s.questions.countP
          fun q => q.tags.chapter == cd.chapter && q.tags.topic == t.topic) : Int)
        = t.count) ∧
    (cd.topics ≠ [] →
      ((s.questions.countP fun q => q.tags.chapter == cd.chapter) : Int)
        = cd.topicTotal) := by
  obtain ⟨-, rfl⟩ := handleGenerate_eq_some.mp hgen
  rw [List.getElem?_map, hsec] at hout
  have hs : s = generateSection st shuffle setup := (Option.some_inj.mp hout).symm
  subst hs
  exact countP_sectionQuestions_eq st shuffle setup hsh hnodup hchne cd hcd
    hcount0 havail htnodup htne ht0 htavail

/-- On the C1 fixture state the generator fires. -/
lemma c1st_handleGenerate :
    handleGenerate c1st idShuffle = some [generateSection c1st idShuffle c1setup] := by
  unfold handleGenerate
  rw [if_pos (by decide)]
  rfl

/-- Witness for C1 (amended) on the fixture state: the topic entry `t1`
contributes exactly its requested 1 question, and chapter `A` receives the
topic total 1 in all. -/
theorem handleGenerate_chapter_topic_counts_witness :
    (((generateSection c1st idShuffle c1setup).questions.countP
        fun q => q.tags.chapter == c1cd.chapter && q.tags.topic == c1topic.topic) : Int)
      = c1topic.count ∧
    (((generateSection c1st idShuffle c1setup).questions.countP
        fun q => q.tags.chapter == c1cd.chapter) : Int) = c1cd.topicTotal := by
  obtain ⟨-, hB, hC⟩ := handleGenerate_chapter_topic_counts c1st idShuffle
    [generateSection c1st idShuffle c1setup] 0 c1setup
    (generateSection c1st idShuffle c1setup)
    (fun l => List.Perm.refl l) c1st_handleGenerate rfl rfl
    (by decide) (by decide) c1cd (by decide) (by decide) (by decide)
    (by decide) (by decide) (by decide) (by decide)
  exact ⟨hB c1topic (by decide), hC (by decide)⟩

/-- C9 (amended): if the pool's question ids are pairwise distinct, the
setup's chapters are pairwise distinct with non-empty names, and each
chapter's listed topics are pairwise distinct with non-empty names, then a
generated section never contains two questions with the same id. -/
theorem generated_section_nodup_ids (st : WizardState)
    (shuffle : List Question → List Question) (out : List QuizSection)
    (k : Nat) (setup : SectionSetup) (s : QuizSection)
    (hsh : ∀ l, (shuffle l).Perm l)
    (hids : (st.questions.map Question.id).Nodup)
    (hgen : handleGenerate st shuffle = some out)
    (hsec : st.sections[k]? = some setup)
    (hout : out[k]? = some s)
    (hnodup : (setup.chapterDistribution.map ChapterDistribution.chapter).Nodup)
    (hchne : ∀ cd ∈ setup.chapterDistribution, cd.chapter ≠ "")
    (htnodup : ∀ cd ∈ setup.chapterDistribution,
      (cd.topics.map TopicDistribution.topic).Nodup)
    (htne : ∀ cd ∈ setup.chapterDistribution, ∀ t ∈ cd.topics, t.topic ≠ "") :
    (s.questions.map Question.id).Nodup := by
  obtain ⟨-, rfl⟩ := handleGenerate_eq_some.mp hgen
  rw [List.getElem?_map, hsec] at hout
  have hs : s = generateSection st shuffle setup := (Option.some_inj.mp hout).symm
  subst hs
  exact nodup_sectionQuestions st shuffle setup hsh hids hnodup hchne htnodup htne

/-- Witness for C9 (amended) on the fixture state: the generated section's
question ids are pairwise distinct. -/
theorem generated_section_nodup_ids_witness :
    ((generateSection wState idShuffle wSetup).questions.map Question.id).Nodup :=
  generated_section_nodup_ids wState idShuffle
    [generateSection wState idShuffle wSetup] 0 wSetup
    (generateSection wState idShuffle wSetup)
    (fun l => List.Perm.refl l) (by decide) wState_handleGenerate rfl rfl
    (by decide) (by decide) (by decide) (by decide)

end Quizapp
